import Mathlib

/-!
Shallow embedding of `src/src/sync_lcd.rs`: the HD44780 LCD driver speaking
through an 8-bit I2C GPIO expander.  The driver is modelled as a state machine
over a machine record `M` holding the mirrored driver state, the trace of
observable effects (raw transport writes and blocking delays) performed so
far, and a bus oracle giving the outcomes of upcoming transport writes.
Rust `u8` values are `Nat`s reduced modulo 256 where overflow matters.
Fallible operations return `Except M M` (the error payload is the machine at
the moment the bus error surfaced); operations that can also panic return
`POr (Except M M)` with the panicked machine preserved.
-/

namespace SyncLcd

/-- Modelled from the spec: the crate-root constants (not under `src/`).
Backlight flag values on the expander output byte; the backlight line shares
that byte with the enable and register-select lines (spec 4.1). Off clears
the bit, On sets it. -/
def Backlight.Off : Nat := 0x00

/-- Modelled from the spec: backlight asserted (crate-root constant). -/
def Backlight.On : Nat := 0x08

/-- Modelled from the spec: display-control all-clear byte (crate-root
constant); also used by the framer as the enable-deasserted pattern. -/
def DisplayControl.Off : Nat := 0x00

/-- Modelled from the spec: cursor-blink bit of the display-control byte. -/
def DisplayControl.CursorBlink : Nat := 0x01

/-- Modelled from the spec: cursor-visible bit of the display-control byte. -/
def DisplayControl.CursorOn : Nat := 0x02

/-- Modelled from the spec: display-on bit; in the nibble framer this same
constant doubles as the enable-line bit of the expander byte. -/
def DisplayControl.DisplayOn : Nat := 0x04

/-- Modelled from the spec: register-select mode Command (spec 4.2: Command=0). -/
def Mode.Cmd : Nat := 0x00

/-- Modelled from the spec: register-select mode Data (spec 4.2: Data=1). -/
def Mode.Data : Nat := 0x01

/-- Modelled from the spec: entry-mode-set instruction select bit. -/
def Mode.EntrySet : Nat := 0x04

/-- Modelled from the spec: display-control instruction select bit. -/
def Mode.DisplayControl : Nat := 0x08

/-- Modelled from the spec: function-set instruction select bit. -/
def Mode.FunctionSet : Nat := 0x20

/-- Modelled from the spec: CGRAM-address instruction select bit. -/
def Mode.CGRAMAddr : Nat := 0x40

/-- Modelled from the spec: DDRAM-address instruction select bit. -/
def Mode.DDRAMAddr : Nat := 0x80

/-- Modelled from the spec: 4-bit-width selector of the function-set byte. -/
def BitMode.Bit4 : Nat := 0x00

/-- Modelled from the spec: 8-bit-width selector of the function-set byte. -/
def BitMode.Bit8 : Nat := 0x10

/-- Modelled from the spec: the clear-display command byte. -/
def Commands.Clear : Nat := 0x01

/-- Modelled from the spec: the return-home command byte. -/
def Commands.ReturnHome : Nat := 0x02

/-- Modelled from the spec: entry-mode cursor-move-direction bit used by init. -/
def CursorMoveDir.Left : Nat := 0x02

/-- Modelled from the spec: entry-mode display-shift policy bit used by init. -/
def DisplayShift.Decrement : Nat := 0x00

/-- Modelled from the spec: 5x8 font selector of the function-set byte. -/
def Font.Font5x8 : Nat := 0x00

/-- Modelled from the spec: 5x10 font selector of the function-set byte. -/
def Font.Font5x10 : Nat := 0x04

/-- Modelled from the spec: the generic row-offset table (crate-root constant,
standard HD44780 DDRAM row bases for the 20x4-style layouts: rows interleave
as 0x00, 0x40, 0x14, 0x54). -/
def OFFSETS_NORMAL : List Nat := [0x00, 0x40, 0x14, 0x54]

/-- Modelled from the spec: the exception row-offset table for the 16x4
physical layout whose DDRAM rows are non-contiguous (0x00, 0x40, 0x10, 0x50). -/
def OFFSETS_16X4 : List Nat := [0x00, 0x40, 0x10, 0x50]

/-- One observable effect of the driver: a raw one-byte transport write to the
I2C address, or a blocking delay (milliseconds or microseconds). -/
inductive Event where
  | wr (addr : Nat) (byte : Nat)
  | delayMs (n : Nat)
  | delayUs (n : Nat)
deriving DecidableEq, Repr

/-- Mirrored driver state: the fields of `struct Lcd` other than the borrowed
capability handles and the compile-time geometry. -/
structure LcdState where
  address : Nat
  backlight_state : Nat
  cursor_on : Bool
  cursor_blink : Bool
  font_mode : Nat
deriving DecidableEq, Repr

/-- A machine: mirrored state, the trace of effects performed so far, and the
bus oracle — the outcomes of the upcoming transport writes, head first; an
exhausted oracle means every later write succeeds. -/
structure M where
  s : LcdState
  trace : List Event
  ora : List Bool
deriving DecidableEq, Repr

/-- One raw transport write (`self.i2c.write(self.address, &[byte])`): the
attempt is recorded in the trace (`u8`-truncated) and consumes one oracle
entry; it fails when the oracle says so. -/
def i2cWrite (m : M) (byte : Nat) : Except M M :=
  match m.ora with
  | [] => Except.ok { m with trace := m.trace ++ [Event.wr m.s.address (byte % 256)] }
  | b :: rest =>
    match b with
    | true => Except.ok { s := m.s, trace := m.trace ++ [Event.wr m.s.address (byte % 256)], ora := rest }
    | false => Except.error { s := m.s, trace := m.trace ++ [Event.wr m.s.address (byte % 256)], ora := rest }

/-- `self.delay.delay_ms(n)`: record the blocking millisecond delay. -/
def delayMs (m : M) (n : Nat) : M :=
  { m with trace := m.trace ++ [Event.delayMs n] }

/-- `self.delay.delay_us(n)`: record the blocking microsecond delay. -/
def delayUs (m : M) (n : Nat) : M :=
  { m with trace := m.trace ++ [Event.delayUs n] }

/-- Project the machine out of a fallible result (either way the effects
performed and the mirrored state are those of the carried machine). -/
def outME : Except M M → M
  | Except.ok m => m
  | Except.error m => m

/-- Result of an operation that can also panic (a failed assert or an
out-of-bounds slice index): the panicked case keeps the machine as it was
when the panic fired, so the effects already performed stay observable. -/
inductive POr (α : Type) where
  | panicked (m : M)
  | ret (v : α)
deriving Repr

/-- Whether a `POr` result panicked. -/
def isPanic : POr (Except M M) → Bool
  | POr.panicked _ => true
  | POr.ret _ => false

/-- Whether a `POr` result returned without panic and without a bus error. -/
def isOkRet : POr (Except M M) → Bool
  | POr.ret (Except.ok _) => true
  | _ => false

/-- Project the machine out of a possibly-panicking result. -/
def pOut : POr (Except M M) → M
  | POr.panicked m => m
  | POr.ret v => outME v

namespace Lcd

/-- `fn new` (src/src/sync_lcd.rs:31): asserts on the geometry, then the
default mirrored state (backlight on, address 0, cursor off, no blink, 5x8
font). A failed assert (panic) is modelled as `none`. -/
def new (ROWS COLUMNS : Nat) : Option LcdState :=
  if 0 < ROWS then
    if 0 < COLUMNS then
      if ROWS < 5 then
        some { address := 0, backlight_state := Backlight.On,
               cursor_on := false, cursor_blink := false,
               font_mode := Font.Font5x8 }
      else none
    else none
  else none

/-- `fn write4bits` (src/src/sync_lcd.rs:108): three raw writes — enable
deasserted, enable asserted, enable deasserted (this last one without the
payload bits) — then the 700 us settle delay. -/
def write4bits (m : M) (data : Nat) : Except M M := do
  let m ← i2cWrite m (data ||| DisplayControl.Off ||| m.s.backlight_state)
  let m ← i2cWrite m (data ||| DisplayControl.DisplayOn ||| m.s.backlight_state)
  let m ← i2cWrite m (DisplayControl.Off ||| m.s.backlight_state)
  pure (delayUs m 700)

/-- `fn send` (src/src/sync_lcd.rs:125): high nibble then low nibble, each
OR'd with the register-select mode, each through the framer. -/
def send (m : M) (data mode : Nat) : Except M M := do
  let m ← write4bits m ((data &&& 0xf0) ||| mode)
  let m ← write4bits m (((data <<< 4) &&& 0xf0) ||| mode)
  pure m

/-- `fn command` (src/src/sync_lcd.rs:133). -/
def command (m : M) (data : Nat) : Except M M :=
  send m data Mode.Cmd

/-- `fn backlight` (src/src/sync_lcd.rs:137): mutate the mirrored flag, then
one direct (non-framed) transport write of the control byte. -/
def backlight (m : M) (bl : Nat) : Except M M :=
  let m := { m with s := { m.s with backlight_state := bl } }
  i2cWrite m (DisplayControl.Off ||| bl)

/-- `fn clear` (src/src/sync_lcd.rs:152). -/
def clear (m : M) : Except M M := do
  let m ← command m Commands.Clear
  pure (delayMs m 2)

/-- `fn return_home` (src/src/sync_lcd.rs:159). -/
def return_home (m : M) : Except M M := do
  let m ← command m Commands.ReturnHome
  pure (delayMs m 2)

/-- `fn set_cursor` (src/src/sync_lcd.rs:166): bound asserts, offset-table
selection, DDRAM-address command. The `u8` addition `col + offset` is taken
modulo 256. -/
def set_cursor (ROWS COLUMNS : Nat) (m : M) (row col : Nat) : POr (Except M M) :=
  if row < ROWS then
    if col < COLUMNS then
      match (if ROWS = 4 ∧ COLUMNS = 16 then OFFSETS_16X4 else OFFSETS_NORMAL)[row]? with
      | some offset => POr.ret (command m (Mode.DDRAMAddr ||| ((col + offset) % 256)))
      | none => POr.panicked m
    else POr.panicked m
  else POr.panicked m

/-- `fn update_display_control` (src/src/sync_lcd.rs:181): re-derive the full
display-control byte from the mirrored flags and resend it. -/
def update_display_control (m : M) : Except M M :=
  let display_ctrl :=
    if m.s.cursor_on then DisplayControl.DisplayOn ||| DisplayControl.CursorOn
    else DisplayControl.DisplayOn
  let display_ctrl :=
    if m.s.cursor_blink then display_ctrl ||| DisplayControl.CursorBlink
    else display_ctrl
  command m (Mode.DisplayControl ||| display_ctrl)

/-- `fn cursor_blink` (src/src/sync_lcd.rs:196). -/
def cursor_blink (m : M) (blink : Bool) : Except M M :=
  update_display_control { m with s := { m.s with cursor_blink := blink } }

/-- `fn cursor_on` (src/src/sync_lcd.rs:202). -/
def cursor_on (m : M) (o : Bool) : Except M M :=
  update_display_control { m with s := { m.s with cursor_on := o } }

/-- `fn update_function_set` (src/src/sync_lcd.rs:208). -/
def update_function_set (ROWS : Nat) (m : M) : Except M M :=
  let lines := match ROWS with
    | 1 => 0x00
    | _ => 0x08
  command m (Mode.FunctionSet ||| m.s.font_mode ||| lines)

/-- `fn font_mode` (src/src/sync_lcd.rs:220). -/
def font_mode (ROWS : Nat) (m : M) (mode : Nat) : Except M M :=
  update_function_set ROWS { m with s := { m.s with font_mode := mode } }

/-- `fn init` (src/src/sync_lcd.rs:72): the power-on handshake. -/
def init (ROWS : Nat) (m : M) : Except M M := do
  let m := delayMs m 80
  let m ← backlight m m.s.backlight_state
  let m := delayMs m 1
  let m ← write4bits m (Mode.FunctionSet ||| BitMode.Bit8)
  let m := delayMs m 5
  let m ← write4bits m (Mode.FunctionSet ||| BitMode.Bit8)
  let m := delayMs m 5
  let m ← write4bits m (Mode.FunctionSet ||| BitMode.Bit8)
  let m := delayMs m 5
  let m ← write4bits m (Mode.FunctionSet ||| BitMode.Bit4)
  let m ← update_function_set ROWS m
  let m ← update_display_control m
  let m ← command m (Mode.Cmd ||| Commands.Clear)
  let m := delayMs m 2
  let m ← command m (Mode.EntrySet ||| CursorMoveDir.Left ||| DisplayShift.Decrement)
  let m ← return_home m
  pure m

/-- The body of `fn create_char`'s loop (src/src/sync_lcd.rs:250):
`for i in 0..8 { self.send(charmap[i], Mode::Data)?; }` — the slice index is
evaluated before the send; an out-of-bounds index panics. -/
def create_char_loop (m : M) (charmap : List Nat) (i : Nat) : Nat → POr (Except M M)
  | 0 => POr.ret (Except.ok m)
  | fuel + 1 =>
    match charmap[i]? with
    | none => POr.panicked m
    | some c =>
      match send m c Mode.Data with
      | Except.error m1 => POr.ret (Except.error m1)
      | Except.ok m1 => create_char_loop m1 charmap (i + 1) fuel

/-- `fn create_char` (src/src/sync_lcd.rs:246): mask the location to 3 bits,
send the CGRAM-address command, then the eight data sends. -/
def create_char (m : M) (location : Nat) (charmap : List Nat) : POr (Except M M) :=
  let location := location &&& 0x7
  match command m (Mode.CGRAMAddr ||| (location <<< 3)) with
  | Except.error m1 => POr.ret (Except.error m1)
  | Except.ok m1 => create_char_loop m1 charmap 0 8

end Lcd

/-- The three raw writes plus the settle delay that one successful
`write4bits` call appends to the trace. -/
def write4bitsTrace (a bl data : Nat) : List Event :=
  [Event.wr a ((data ||| DisplayControl.Off ||| bl) % 256),
   Event.wr a ((data ||| DisplayControl.DisplayOn ||| bl) % 256),
   Event.wr a ((DisplayControl.Off ||| bl) % 256),
   Event.delayUs 700]

/-- The eight events one successful `send` appends: the high nibble's framer
call followed by the low nibble's, both tagged with the same mode bit. -/
def sendTrace (a bl data mode : Nat) : List Event :=
  write4bitsTrace a bl ((data &&& 0xf0) ||| mode) ++
  write4bitsTrace a bl (((data <<< 4) &&& 0xf0) ||| mode)

/-- The Data-mode sends for a list of bytes, in order. -/
def dataTrace (a bl : Nat) : List Nat → List Event
  | [] => []
  | c :: rest => sendTrace a bl c Mode.Data ++ dataTrace a bl rest

/-- The millisecond delays of a trace, in order. -/
def msDelays (l : List Event) : List Nat :=
  l.filterMap fun e => match e with
    | Event.delayMs n => some n
    | _ => none

theorem except_bind_ok (a : M) (f : M → Except M M) :
    (Except.ok a : Except M M) >>= f = f a := rfl

theorem except_bind_error (a : M) (f : M → Except M M) :
    (Except.error a : Except M M) >>= f = Except.error a := rfl

theorem except_pure (a : M) : (pure a : Except M M) = Except.ok a := rfl

theorem i2cWrite_nil (a bl : Nat) (con cb : Bool) (fm : Nat) (tr : List Event)
    (byte : Nat) :
    i2cWrite ⟨⟨a, bl, con, cb, fm⟩, tr, []⟩ byte =
      Except.ok ⟨⟨a, bl, con, cb, fm⟩, tr ++ [Event.wr a (byte % 256)], []⟩ := rfl

theorem write4bits_nil (a bl : Nat) (con cb : Bool) (fm : Nat) (tr : List Event)
    (data : Nat) :
    Lcd.write4bits ⟨⟨a, bl, con, cb, fm⟩, tr, []⟩ data =
      Except.ok ⟨⟨a, bl, con, cb, fm⟩, tr ++ write4bitsTrace a bl data, []⟩ := by
  simp [Lcd.write4bits, i2cWrite_nil, except_bind_ok, except_pure, delayUs,
    write4bitsTrace]

theorem send_nil (a bl : Nat) (con cb : Bool) (fm : Nat) (tr : List Event)
    (data mode : Nat) :
    Lcd.send ⟨⟨a, bl, con, cb, fm⟩, tr, []⟩ data mode =
      Except.ok ⟨⟨a, bl, con, cb, fm⟩, tr ++ sendTrace a bl data mode, []⟩ := by
  simp [Lcd.send, write4bits_nil, except_bind_ok, except_pure, sendTrace]

theorem command_nil (a bl : Nat) (con cb : Bool) (fm : Nat) (tr : List Event)
    (data : Nat) :
    Lcd.command ⟨⟨a, bl, con, cb, fm⟩, tr, []⟩ data =
      Except.ok ⟨⟨a, bl, con, cb, fm⟩, tr ++ sendTrace a bl data Mode.Cmd, []⟩ := by
  simp [Lcd.command, send_nil]

theorem i2cWrite_s_eq (m : M) (b : Nat) : (outME (i2cWrite m b)).s = m.s := by
  rcases m with ⟨s, tr, _ | ⟨bb, rest⟩⟩
  · rfl
  · cases bb <;> rfl

theorem write4bits_s_eq (m : M) (d : Nat) : (outME (Lcd.write4bits m d)).s = m.s := by
  rcases m with ⟨s, tr, _ | ⟨b1, _ | ⟨b2, _ | ⟨b3, rest⟩⟩⟩⟩
  · rfl
  · cases b1 <;> rfl
  · cases b1 <;> cases b2 <;> rfl
  · cases b1 <;> cases b2 <;> cases b3 <;> rfl

theorem send_s_eq (m : M) (d mode : Nat) : (outME (Lcd.send m d mode)).s = m.s := by
  unfold Lcd.send
  rcases h1 : Lcd.write4bits m ((d &&& 0xf0) ||| mode) with m1 | m1
  · have e1 := write4bits_s_eq m ((d &&& 0xf0) ||| mode)
    rw [h1] at e1
    rw [except_bind_error]
    exact e1
  · have e1 := write4bits_s_eq m ((d &&& 0xf0) ||| mode)
    rw [h1] at e1
    rw [except_bind_ok]
    rcases h2 : Lcd.write4bits m1 (((d <<< 4) &&& 0xf0) ||| mode) with m2 | m2
    · have e2 := write4bits_s_eq m1 (((d <<< 4) &&& 0xf0) ||| mode)
      rw [h2] at e2
      rw [except_bind_error]
      exact e2.trans e1
    · have e2 := write4bits_s_eq m1 (((d <<< 4) &&& 0xf0) ||| mode)
      rw [h2] at e2
      rw [except_bind_ok]
      exact e2.trans e1

theorem command_s_eq (m : M) (d : Nat) : (outME (Lcd.command m d)).s = m.s :=
  send_s_eq m d Mode.Cmd

theorem update_display_control_s_eq (m : M) :
    (outME (Lcd.update_display_control m)).s = m.s := by
  unfold Lcd.update_display_control
  exact command_s_eq m _

theorem update_function_set_s_eq (R : Nat) (m : M) :
    (outME (Lcd.update_function_set R m)).s = m.s := by
  unfold Lcd.update_function_set
  exact command_s_eq m _

/-- Claim C2: for every byte `data` and every mode, `send(data, mode)` performs
exactly two nibble transactions via the framer — the first carrying bits 4-7 of
`data`, the second carrying bits 0-3 shifted into bit positions 4-7, both OR'd
with the same register-select mode bit — and adds no delay beyond the framer's
own settle delays. -/
theorem send_two_nibbles (a bl : Nat) (con cb : Bool) (fm : Nat)
    (tr : List Event) (data mode : Nat) :
    Lcd.send ⟨⟨a, bl, con, cb, fm⟩, tr, []⟩ data mode =
      Except.ok ⟨⟨a, bl, con, cb, fm⟩,
        tr ++ write4bitsTrace a bl ((data &&& 0xf0) ||| mode)
           ++ write4bitsTrace a bl (((data <<< 4) &&& 0xf0) ||| mode), []⟩ := by
  simp [Lcd.send, write4bits_nil, except_bind_ok, except_pure]

/-- Claim C3 (amended): `write4bits(payload)` performs exactly three transport
writes, in order enable-deasserted, enable-asserted, enable-deasserted; the
first two restate the payload bits (with mode) together with the live
backlight bit, while the third write carries only the control/backlight bits
with enable deasserted (the payload bits are not restated there); it then
blocks 700 microseconds. -/
theorem write4bits_three_writes (a bl : Nat) (con cb : Bool) (fm : Nat)
    (tr : List Event) (data : Nat) :
    Lcd.write4bits ⟨⟨a, bl, con, cb, fm⟩, tr, []⟩ data =
      Except.ok ⟨⟨a, bl, con, cb, fm⟩,
        tr ++ [Event.wr a ((data ||| DisplayControl.Off ||| bl) % 256),
               Event.wr a ((data ||| DisplayControl.DisplayOn ||| bl) % 256),
               Event.wr a ((DisplayControl.Off ||| bl) % 256),
               Event.delayUs 700], []⟩ := by
  simp [write4bits_nil, write4bitsTrace]

/-- Claim C3 counterexample: with payload `0x30` and backlight `0x08`, the
claim as stated predicts the third transport write restates the full desired
output byte `(0x30 | Off | 0x08) % 256 = 0x38`; the code's third write carries
only `0x08` — the payload bits are dropped. -/
theorem write4bits_third_write_cex :
    ((outME (Lcd.write4bits ⟨⟨0, 8, false, false, 0⟩, [], []⟩ 0x30)).trace)[2]? =
      some (Event.wr 0 0x08) ∧
    (0x30 ||| DisplayControl.Off ||| 8) % 256 = 0x38 ∧
    Event.wr 0 0x08 ≠ Event.wr 0 0x38 := by decide

/-- Claim C7: when the transport fails on the second of the three `write4bits`
writes (oracle `true :: false :: _`), the bus error propagates immediately —
from the framer itself, from `send`, and from a public operation in progress
(`set_cursor` shown) — and exactly the two attempted transport writes appear
in the trace, with no further writes and no settle delay for that operation. -/
theorem bus_error_second_write (a bl : Nat) (con cb : Bool) (fm : Nat)
    (tr : List Event) (rest : List Bool) (d mode : Nat) :
    (Lcd.write4bits ⟨⟨a, bl, con, cb, fm⟩, tr, true :: false :: rest⟩ d =
      Except.error ⟨⟨a, bl, con, cb, fm⟩,
        tr ++ (write4bitsTrace a bl d).take 2, rest⟩) ∧
    (Lcd.send ⟨⟨a, bl, con, cb, fm⟩, tr, true :: false :: rest⟩ d mode =
      Except.error ⟨⟨a, bl, con, cb, fm⟩,
        tr ++ (write4bitsTrace a bl ((d &&& 0xf0) ||| mode)).take 2, rest⟩) ∧
    (Lcd.set_cursor 2 16 ⟨⟨a, bl, con, cb, fm⟩, tr, true :: false :: rest⟩ 1 3 =
      POr.ret (Except.error ⟨⟨a, bl, con, cb, fm⟩,
        tr ++ (write4bitsTrace a bl
          (((Mode.DDRAMAddr ||| ((3 + OFFSETS_NORMAL.getD 1 0) % 256)) &&& 0xf0)
            ||| Mode.Cmd)).take 2, rest⟩)) := by
  refine ⟨?_, ?_, ?_⟩ <;>
    simp [Lcd.set_cursor, Lcd.command, Lcd.send, Lcd.write4bits, i2cWrite,
      except_bind_ok, except_bind_error, write4bitsTrace, OFFSETS_NORMAL,
      Mode.DDRAMAddr, Mode.Cmd, DisplayControl.Off, DisplayControl.DisplayOn]

/-- Claim C8: when a state-changing mutator (`cursor_on`, `cursor_blink`,
`font_mode`, `backlight`) returns a bus error, the mirrored field it mutates
is not rolled back: it holds the newly requested value. -/
theorem mutator_no_rollback (m : M) (b : Bool) (fm bl R : Nat) :
    (∀ m2, Lcd.cursor_on m b = Except.error m2 → m2.s.cursor_on = b) ∧
    (∀ m2, Lcd.cursor_blink m b = Except.error m2 → m2.s.cursor_blink = b) ∧
    (∀ m2, Lcd.font_mode R m fm = Except.error m2 → m2.s.font_mode = fm) ∧
    (∀ m2, Lcd.backlight m bl = Except.error m2 → m2.s.backlight_state = bl) := by
  refine ⟨?_, ?_, ?_, ?_⟩
  · intro m2 h
    simp only [Lcd.cursor_on] at h
    have e := update_display_control_s_eq { m with s := { m.s with cursor_on := b } }
    rw [h] at e
    have e2 : m2.s = { m.s with cursor_on := b } := e
    rw [e2]
  · intro m2 h
    simp only [Lcd.cursor_blink] at h
    have e := update_display_control_s_eq { m with s := { m.s with cursor_blink := b } }
    rw [h] at e
    have e2 : m2.s = { m.s with cursor_blink := b } := e
    rw [e2]
  · intro m2 h
    simp only [Lcd.font_mode] at h
    have e := update_function_set_s_eq R { m with s := { m.s with font_mode := fm } }
    rw [h] at e
    have e2 : m2.s = { m.s with font_mode := fm } := e
    rw [e2]
  · intro m2 h
    simp only [Lcd.backlight] at h
    have e := i2cWrite_s_eq { m with s := { m.s with backlight_state := bl } }
      (DisplayControl.Off ||| bl)
    rw [h] at e
    have e2 : m2.s = { m.s with backlight_state := bl } := e
    rw [e2]

/-- The full display-control payload `update_display_control` derives from the
mirrored cursor flags (src/src/sync_lcd.rs:181). -/
def displayControlByte (con cb : Bool) : Nat :=
  Mode.DisplayControl |||
    (if cb then
      (if con then DisplayControl.DisplayOn ||| DisplayControl.CursorOn
       else DisplayControl.DisplayOn) ||| DisplayControl.CursorBlink
     else
      (if con then DisplayControl.DisplayOn ||| DisplayControl.CursorOn
       else DisplayControl.DisplayOn))

theorem update_display_control_nil (a bl : Nat) (con cb : Bool) (fm : Nat)
    (tr : List Event) :
    Lcd.update_display_control ⟨⟨a, bl, con, cb, fm⟩, tr, []⟩ =
      Except.ok ⟨⟨a, bl, con, cb, fm⟩,
        tr ++ sendTrace a bl (displayControlByte con cb) Mode.Cmd, []⟩ := by
  cases con <;> cases cb <;>
    simp [Lcd.update_display_control, command_nil, displayControlByte]

theorem update_function_set_nil (R a bl : Nat) (con cb : Bool) (fm : Nat)
    (tr : List Event) :
    Lcd.update_function_set R ⟨⟨a, bl, con, cb, fm⟩, tr, []⟩ =
      Except.ok ⟨⟨a, bl, con, cb, fm⟩,
        tr ++ sendTrace a bl
          (Mode.FunctionSet ||| fm ||| (match R with | 1 => 0x00 | _ => 0x08))
          Mode.Cmd, []⟩ := by
  simp [Lcd.update_function_set, command_nil]

theorem backlight_nil (a bl : Nat) (con cb : Bool) (fm : Nat)
    (tr : List Event) (bl2 : Nat) :
    Lcd.backlight ⟨⟨a, bl, con, cb, fm⟩, tr, []⟩ bl2 =
      Except.ok ⟨⟨a, bl2, con, cb, fm⟩,
        tr ++ [Event.wr a ((DisplayControl.Off ||| bl2) % 256)], []⟩ := by
  simp [Lcd.backlight, i2cWrite_nil]

/-- Claim C5: `cursor_on(true)` twice in succession is idempotent — each call
issues one identical full display-control Command write (re-derived from the
mirrored state) whose payload has the cursor-visible bit set, and the mirrored
`cursor_on` field equals `true` after each call regardless of its prior
value. -/
theorem cursor_on_twice_idempotent (a bl : Nat) (con cb : Bool) (fm : Nat)
    (tr : List Event) :
    Lcd.cursor_on ⟨⟨a, bl, con, cb, fm⟩, tr, []⟩ true =
      Except.ok ⟨⟨a, bl, true, cb, fm⟩,
        tr ++ sendTrace a bl (displayControlByte true cb) Mode.Cmd, []⟩ ∧
    Lcd.cursor_on ⟨⟨a, bl, true, cb, fm⟩,
        tr ++ sendTrace a bl (displayControlByte true cb) Mode.Cmd, []⟩ true =
      Except.ok ⟨⟨a, bl, true, cb, fm⟩,
        tr ++ sendTrace a bl (displayControlByte true cb) Mode.Cmd
           ++ sendTrace a bl (displayControlByte true cb) Mode.Cmd, []⟩ ∧
    displayControlByte true cb &&& DisplayControl.CursorOn = DisplayControl.CursorOn := by
  refine ⟨?_, ?_, ?_⟩
  · simp [Lcd.cursor_on, update_display_control_nil]
  · simp [Lcd.cursor_on, update_display_control_nil]
  · cases cb <;> decide

/-- Claim C1 counterexample: with the 4-row, 20-column geometry at row 2,
col 5 the generic table's base offset `0x14` shares set bits with the column,
so the two combinations the claim equates disagree: the code sends
`DDRAMAddr | ((5 + 0x14) % 256)` (sum), not `DDRAMAddr | (0x14 | 5)`
(bitwise OR of base and col). -/
theorem set_cursor_or_vs_plus_cex :
    isOkRet (Lcd.set_cursor 4 20 ⟨⟨0, 8, false, false, 0⟩, [], []⟩ 2 5) = true ∧
    (pOut (Lcd.set_cursor 4 20 ⟨⟨0, 8, false, false, 0⟩, [], []⟩ 2 5)).trace =
      sendTrace 0 8 (Mode.DDRAMAddr ||| ((5 + OFFSETS_NORMAL.getD 2 0) % 256))
        Mode.Cmd ∧
    (pOut (Lcd.set_cursor 4 20 ⟨⟨0, 8, false, false, 0⟩, [], []⟩ 2 5)).trace ≠
      sendTrace 0 8 (Mode.DDRAMAddr ||| (OFFSETS_NORMAL.getD 2 0 ||| 5))
        Mode.Cmd := by
  decide

/-- Claim C1 (amended): for every valid pair (row, col) with row < ROWS and
col < COLUMNS (and ROWS at most 4, as construction enforces),
`set_cursor(row, col)` issues exactly one Command-mode register write whose
payload is the DDRAM-address mode bit OR'd with the low-8-bit sum of the
row's geometry-table base offset and col; for the 4-row/16-column
configuration the base offset comes from the non-contiguous 16x4 table, and
for every other configuration from the generic table. (The claim's alternate
phrasing — bitwise OR of base and col — disagrees with the code whenever base
and col share set bits; the sum is what the code computes.) -/
theorem set_cursor_ddram_command (R C a bl : Nat) (con cb : Bool) (fm : Nat)
    (tr : List Event) (row col : Nat)
    (h1 : row < R) (h2 : col < C) (h3 : R < 5) :
    Lcd.set_cursor R C ⟨⟨a, bl, con, cb, fm⟩, tr, []⟩ row col =
      POr.ret (Except.ok ⟨⟨a, bl, con, cb, fm⟩,
        tr ++ sendTrace a bl
          (Mode.DDRAMAddr |||
            ((col + (if R = 4 ∧ C = 16 then OFFSETS_16X4 else OFFSETS_NORMAL).getD row 0) % 256))
          Mode.Cmd, []⟩) := by
  have h4 : row < 4 := by omega
  simp only [Lcd.set_cursor, if_pos h1, if_pos h2]
  by_cases hg : R = 4 ∧ C = 16
  · simp only [if_pos hg]
    interval_cases row <;> simp [OFFSETS_16X4, command_nil, List.getD]
  · simp only [if_neg hg]
    interval_cases row <;> simp [OFFSETS_NORMAL, command_nil, List.getD]

/-- Claim C1 witness: the 16x4 geometry at row 3, col 10 — one Command-mode
register write of `DDRAMAddr | ((10 + 0x50) % 256) = 218`, base offset taken
from the non-contiguous table. -/
theorem set_cursor_ddram_command_witness :
    ((3:Nat) < 4 ∧ (10:Nat) < 16 ∧ (4:Nat) < 5) ∧
    Lcd.set_cursor 4 16 ⟨⟨0, 8, false, false, 0⟩, [], []⟩ 3 10 =
      POr.ret (Except.ok ⟨⟨0, 8, false, false, 0⟩,
        sendTrace 0 8 218 Mode.Cmd, []⟩) :=
  ⟨⟨by decide, by decide, by decide⟩,
   set_cursor_ddram_command 4 16 0 8 false false 0 [] 3 10
     (by decide) (by decide) (by decide)⟩

/-- Claim C9: out-of-bounds coordinates and invalid geometry fail fast by
panic, not by an error value — construction succeeds exactly when
1 <= ROWS <= 4 and COLUMNS >= 1, and under valid geometry `set_cursor`
avoids every panic branch exactly when row < ROWS and col < COLUMNS. -/
theorem panic_contracts :
    (∀ R C, (Lcd.new R C).isSome = true ↔ (0 < R ∧ 0 < C ∧ R < 5)) ∧
    (∀ R C a bl : Nat, ∀ con cb : Bool, ∀ fm : Nat, ∀ tr : List Event,
      ∀ row col : Nat, 0 < R → R < 5 →
      (isPanic (Lcd.set_cursor R C ⟨⟨a, bl, con, cb, fm⟩, tr, []⟩ row col) = false ↔
        (row < R ∧ col < C))) := by
  constructor
  · intro R C
    unfold Lcd.new
    split_ifs <;> simp_all
  · intro R C a bl con cb fm tr row col hR hR5
    by_cases hr : row < R
    · by_cases hc : col < C
      · have h4 : row < 4 := by omega
        simp only [Lcd.set_cursor, if_pos hr, if_pos hc]
        by_cases hg : R = 4 ∧ C = 16
        · simp only [if_pos hg]
          interval_cases row <;> simp [OFFSETS_16X4, isPanic, hr, hc]
        · simp only [if_neg hg]
          interval_cases row <;> simp [OFFSETS_NORMAL, isPanic, hr, hc]
      · simp [Lcd.set_cursor, hr, hc, isPanic]
    · simp [Lcd.set_cursor, hr, isPanic]

/-- Claim C9 witness: the 16x4 geometry constructs, and `set_cursor(3, 15)`
reaches no panic branch there. -/
theorem panic_contracts_witness :
    (Lcd.new 4 16).isSome = true ∧
    isPanic (Lcd.set_cursor 4 16 ⟨⟨0, 8, false, false, 0⟩, [], []⟩ 3 15) = false :=
  ⟨(panic_contracts.1 4 16).mpr (by decide),
   (panic_contracts.2 4 16 0 8 false false 0 [] 3 15 (by decide) (by decide)).mpr
     (by decide)⟩

/-- Claim C4: `init` performs its steps and mandated delays in the documented
order — 80 ms wait, direct backlight write, 1 ms wait, three 8-bit
function-set probes each followed by 5 ms, the single 4-bit switch nibble,
the full function-set byte, the full display-control byte, clear + 2 ms,
entry-mode, return-home + 2 ms — and the millisecond delays total exactly
100 ms (hence at least 100 ms), exclusive of the per-nibble 700 us settles. -/
theorem init_sequence (R a bl : Nat) (con cb : Bool) (fm : Nat)
    (tr : List Event) :
    Lcd.init R ⟨⟨a, bl, con, cb, fm⟩, tr, []⟩ =
      Except.ok ⟨⟨a, bl, con, cb, fm⟩,
        tr ++ [Event.delayMs 80,
               Event.wr a ((DisplayControl.Off ||| bl) % 256),
               Event.delayMs 1]
           ++ write4bitsTrace a bl (Mode.FunctionSet ||| BitMode.Bit8)
           ++ [Event.delayMs 5]
           ++ write4bitsTrace a bl (Mode.FunctionSet ||| BitMode.Bit8)
           ++ [Event.delayMs 5]
           ++ write4bitsTrace a bl (Mode.FunctionSet ||| BitMode.Bit8)
           ++ [Event.delayMs 5]
           ++ write4bitsTrace a bl (Mode.FunctionSet ||| BitMode.Bit4)
           ++ sendTrace a bl
                (Mode.FunctionSet ||| fm ||| (match R with | 1 => 0x00 | _ => 0x08))
                Mode.Cmd
           ++ sendTrace a bl (displayControlByte con cb) Mode.Cmd
           ++ sendTrace a bl (Mode.Cmd ||| Commands.Clear) Mode.Cmd
           ++ [Event.delayMs 2]
           ++ sendTrace a bl
                (Mode.EntrySet ||| CursorMoveDir.Left ||| DisplayShift.Decrement)
                Mode.Cmd
           ++ sendTrace a bl Commands.ReturnHome Mode.Cmd
           ++ [Event.delayMs 2], []⟩ ∧
    msDelays (outME (Lcd.init R ⟨⟨a, bl, con, cb, fm⟩, tr, []⟩)).trace =
      msDelays tr ++ [80, 1, 5, 5, 5, 2, 2] ∧
    (msDelays (outME (Lcd.init R ⟨⟨a, bl, con, cb, fm⟩, tr, []⟩)).trace).sum =
      (msDelays tr).sum + 100 := by
  have h1 : Lcd.init R ⟨⟨a, bl, con, cb, fm⟩, tr, []⟩ =
      Except.ok ⟨⟨a, bl, con, cb, fm⟩,
        tr ++ [Event.delayMs 80,
               Event.wr a ((DisplayControl.Off ||| bl) % 256),
               Event.delayMs 1]
           ++ write4bitsTrace a bl (Mode.FunctionSet ||| BitMode.Bit8)
           ++ [Event.delayMs 5]
           ++ write4bitsTrace a bl (Mode.FunctionSet ||| BitMode.Bit8)
           ++ [Event.delayMs 5]
           ++ write4bitsTrace a bl (Mode.FunctionSet ||| BitMode.Bit8)
           ++ [Event.delayMs 5]
           ++ write4bitsTrace a bl (Mode.FunctionSet ||| BitMode.Bit4)
           ++ sendTrace a bl
                (Mode.FunctionSet ||| fm ||| (match R with | 1 => 0x00 | _ => 0x08))
                Mode.Cmd
           ++ sendTrace a bl (displayControlByte con cb) Mode.Cmd
           ++ sendTrace a bl (Mode.Cmd ||| Commands.Clear) Mode.Cmd
           ++ [Event.delayMs 2]
           ++ sendTrace a bl
                (Mode.EntrySet ||| CursorMoveDir.Left ||| DisplayShift.Decrement)
                Mode.Cmd
           ++ sendTrace a bl Commands.ReturnHome Mode.Cmd
           ++ [Event.delayMs 2], []⟩ := by
    simp [Lcd.init, Lcd.return_home, backlight_nil, write4bits_nil,
      update_function_set_nil, update_display_control_nil, command_nil,
      delayMs, except_bind_ok, except_pure]
  refine ⟨h1, ?_, ?_⟩ <;> rw [h1] <;>
    simp [outME, msDelays, sendTrace, write4bitsTrace, List.filterMap_append,
      List.sum_append]

theorem create_char_loop_ok (a bl : Nat) (con cb : Bool) (fm : Nat) :
    ∀ (fuel i : Nat) (tr : List Event) (charmap : List Nat),
      i + fuel ≤ charmap.length →
      Lcd.create_char_loop ⟨⟨a, bl, con, cb, fm⟩, tr, []⟩ charmap i fuel =
        POr.ret (Except.ok ⟨⟨a, bl, con, cb, fm⟩,
          tr ++ dataTrace a bl ((charmap.drop i).take fuel), []⟩) := by
  intro fuel
  induction fuel with
  | zero =>
    intro i tr charmap h
    simp [Lcd.create_char_loop, dataTrace]
  | succ n ih =>
    intro i tr charmap h
    have hi : i < charmap.length := by omega
    simp only [Lcd.create_char_loop, List.getElem?_eq_getElem hi, send_nil]
    rw [ih (i + 1) _ charmap (by omega)]
    rw [List.drop_eq_getElem_cons hi]
    simp [dataTrace, List.append_assoc]

theorem create_char_loop_panic (a bl : Nat) (con cb : Bool) (fm : Nat) :
    ∀ (fuel i : Nat) (tr : List Event) (charmap : List Nat),
      charmap.length < i + fuel → i ≤ charmap.length →
      Lcd.create_char_loop ⟨⟨a, bl, con, cb, fm⟩, tr, []⟩ charmap i fuel =
        POr.panicked ⟨⟨a, bl, con, cb, fm⟩,
          tr ++ dataTrace a bl (charmap.drop i), []⟩ := by
  intro fuel
  induction fuel with
  | zero =>
    intro i tr charmap h1 h2
    exact absurd h1 (by omega)
  | succ n ih =>
    intro i tr charmap h1 h2
    by_cases hi : i < charmap.length
    · simp only [Lcd.create_char_loop, List.getElem?_eq_getElem hi, send_nil]
      rw [ih (i + 1) _ charmap (by omega) (by omega)]
      rw [List.drop_eq_getElem_cons hi]
      simp [dataTrace, List.append_assoc]
    · have he : i = charmap.length := by omega
      subst he
      simp [Lcd.create_char_loop, List.getElem?_eq_none, List.drop_length,
        dataTrace]

/-- Claim C6: `create_char(location, charmap)` (8-byte bitmap) masks the
location to its low 3 bits (so location 9 is stored at slot 1), issues
exactly one CGRAM-address Command write whose payload is the CGRAM mode bit
OR'd with the masked location shifted left by 3, then exactly 8 Data-mode
register writes, one per bitmap byte, in index order 0 through 7. -/
theorem create_char_sequence (a bl : Nat) (con cb : Bool) (fm : Nat)
    (tr : List Event) (location : Nat) (charmap : List Nat)
    (h : charmap.length = 8) :
    Lcd.create_char ⟨⟨a, bl, con, cb, fm⟩, tr, []⟩ location charmap =
      POr.ret (Except.ok ⟨⟨a, bl, con, cb, fm⟩,
        tr ++ sendTrace a bl (Mode.CGRAMAddr ||| ((location &&& 0x7) <<< 3)) Mode.Cmd
           ++ dataTrace a bl charmap, []⟩) ∧
    (9 &&& 0x7) = 1 := by
  constructor
  · simp only [Lcd.create_char, command_nil]
    rw [create_char_loop_ok a bl con cb fm 8 0 _ charmap (by omega)]
    simp [List.take_of_length_le (by omega : charmap.length ≤ 8)]
  · decide

/-- Claim C6 witness: `create_char(9, [1..8])` — the CGRAM-address write uses
slot 9 & 0x7 = 1, followed by the eight Data-mode sends in order. -/
theorem create_char_sequence_witness :
    ([1, 2, 3, 4, 5, 6, 7, 8] : List Nat).length = 8 ∧
    Lcd.create_char ⟨⟨0, 8, false, false, 0⟩, [], []⟩ 9 [1, 2, 3, 4, 5, 6, 7, 8] =
      POr.ret (Except.ok ⟨⟨0, 8, false, false, 0⟩,
        sendTrace 0 8 (Mode.CGRAMAddr ||| (1 <<< 3)) Mode.Cmd
          ++ dataTrace 0 8 [1, 2, 3, 4, 5, 6, 7, 8], []⟩) :=
  ⟨by decide,
   (create_char_sequence 0 8 false false 0 [] 9 [1, 2, 3, 4, 5, 6, 7, 8]
     (by decide)).1⟩

/-- Claim C10: `create_char` unconditionally indexes the bitmap slice at 0..7:
a slice shorter than 8 bytes panics — after the CGRAM-address command and the
Data writes for the in-bounds indices have already been sent — and for a
slice of length 8 or more only the first 8 bytes are transmitted. -/
theorem create_char_slice_bounds (a bl : Nat) (con cb : Bool) (fm : Nat)
    (tr : List Event) (location : Nat) (charmap : List Nat) :
    (charmap.length < 8 →
      Lcd.create_char ⟨⟨a, bl, con, cb, fm⟩, tr, []⟩ location charmap =
        POr.panicked ⟨⟨a, bl, con, cb, fm⟩,
          tr ++ sendTrace a bl (Mode.CGRAMAddr ||| ((location &&& 0x7) <<< 3)) Mode.Cmd
             ++ dataTrace a bl charmap, []⟩) ∧
    (8 ≤ charmap.length →
      Lcd.create_char ⟨⟨a, bl, con, cb, fm⟩, tr, []⟩ location charmap =
        POr.ret (Except.ok ⟨⟨a, bl, con, cb, fm⟩,
          tr ++ sendTrace a bl (Mode.CGRAMAddr ||| ((location &&& 0x7) <<< 3)) Mode.Cmd
             ++ dataTrace a bl (charmap.take 8), []⟩)) := by
  constructor
  · intro h
    simp only [Lcd.create_char, command_nil]
    rw [create_char_loop_panic a bl con cb fm 8 0 _ charmap (by omega) (by omega)]
    simp
  · intro h
    simp only [Lcd.create_char, command_nil]
    rw [create_char_loop_ok a bl con cb fm 8 0 _ charmap (by omega)]
    simp

/-- Claim C10 witness: a 3-byte slice panics after the CGRAM command and the
three in-bounds Data writes; a 9-byte slice succeeds transmitting only the
first 8 bytes. -/
theorem create_char_slice_bounds_witness :
    ([1, 2, 3] : List Nat).length < 8 ∧
    Lcd.create_char ⟨⟨0, 8, false, false, 0⟩, [], []⟩ 1 [1, 2, 3] =
      POr.panicked ⟨⟨0, 8, false, false, 0⟩,
        sendTrace 0 8 (Mode.CGRAMAddr ||| (1 <<< 3)) Mode.Cmd
          ++ dataTrace 0 8 [1, 2, 3], []⟩ ∧
    (8 : Nat) ≤ ([1, 2, 3, 4, 5, 6, 7, 8, 9] : List Nat).length ∧
    Lcd.create_char ⟨⟨0, 8, false, false, 0⟩, [], []⟩ 1 [1, 2, 3, 4, 5, 6, 7, 8, 9] =
      POr.ret (Except.ok ⟨⟨0, 8, false, false, 0⟩,
        sendTrace 0 8 (Mode.CGRAMAddr ||| (1 <<< 3)) Mode.Cmd
          ++ dataTrace 0 8 [1, 2, 3, 4, 5, 6, 7, 8], []⟩) :=
  ⟨by decide,
   (create_char_slice_bounds 0 8 false false 0 [] 1 [1, 2, 3]).1 (by decide),
   by decide,
   (create_char_slice_bounds 0 8 false false 0 [] 1
     [1, 2, 3, 4, 5, 6, 7, 8, 9]).2 (by decide)⟩

/-- Claim C8 witness: on a bus that fails the first write, `cursor_on(true)`
returns a bus error whose machine still mirrors `cursor_on = true`. -/
theorem mutator_no_rollback_witness :
    Lcd.cursor_on ⟨⟨0, 8, false, false, 0⟩, [], [false]⟩ true =
      Except.error ⟨⟨0, 8, true, false, 0⟩, [Event.wr 0 8], []⟩ ∧
    (⟨⟨0, 8, true, false, 0⟩, [Event.wr 0 8], []⟩ : M).s.cursor_on = true :=
  ⟨rfl, (mutator_no_rollback ⟨⟨0, 8, false, false, 0⟩, [], [false]⟩ true 0 0 2).1
      ⟨⟨0, 8, true, false, 0⟩, [Event.wr 0 8], []⟩ rfl⟩

end SyncLcd
